import Mathlib

/-!
Verification of the auth-email extension.

The client-side Session Controller is embedded from `src/frontend/useAuth.ts`
(the `useAuth` hook: `clearAuth`, `scheduleRefresh`, `refreshTokenFn`, `login`,
`register`, `logout`, `isAuthenticated`) together with the client-side checks of
`src/frontend/RegisterForm.tsx` (`handleRegister`).  The server-side Session
Registry and password-policy validation live in backend handlers that are not
part of the source tree; they are modelled from the specification and marked as
such in their doc comments.

React state (`useState`, `useRef`) is embedded as an explicit record
`ClientState`; `setTimeout`/`clearTimeout` is embedded as a pool of live timers
plus the single `refreshTimerRef` slot, exactly mirroring which handles the
source creates and cancels.  Network calls (`fetch`) are embedded by
quantifying over the response the server may produce.
-/

namespace AuthEmail

/-- Public user profile, from `useAuth.ts` (`interface User`). -/
structure User where
  id : Nat
  email : String
  name : Option String
deriving DecidableEq

/-- A live `setTimeout` handle: its id and the delay in milliseconds it was
installed with.  Browser timer handles are positive integers, so ids start
at 1 (`refreshTimerRef.current` is tested for truthiness in the source). -/
structure Timer where
  id : Nat
  delayMs : Int
deriving DecidableEq

/-- The options of `useAuth` that matter to the controller logic:
`autoRefresh` (default `true`) and `refreshBeforeExpiry` (default 60 seconds),
from the destructuring at the top of `useAuth`. -/
structure Config where
  autoRefresh : Bool
  refreshBeforeExpiry : Int
deriving DecidableEq

/-- The default option values of `useAuth`. -/
def defaultConfig : Config := { autoRefresh := true, refreshBeforeExpiry := 60 }

/-- The state owned by the Client Session Controller: the React state of
`useAuth` (`user`, `accessToken`, `isLoading`, `error`), the persisted
refresh token (`localStorage` under `auth_refresh_token`), the
`refreshTimerRef` slot, and the pool of live (installed, not yet cancelled or
fired) timers.  `nextTimerId` supplies fresh handles for `setTimeout`. -/
structure ClientState where
  user : Option User
  accessToken : Option String
  isLoading : Bool
  error : Option String
  storedRefreshToken : Option String
  refreshTimerRef : Option Nat
  liveTimers : List Timer
  nextTimerId : Nat
deriving DecidableEq

/-- Effect of `clearTimeout(tid)` on the pool of live timers. -/
def clearTimeoutL (tid : Nat) (l : List Timer) : List Timer :=
  l.filter (fun t => decide (t.id ≠ tid))

/-- The guarded cancellation pattern
`if (refreshTimerRef.current) clearTimeout(refreshTimerRef.current)`
used by both `clearAuth` and `scheduleRefresh`. -/
def cancelPending (s : ClientState) : List Timer :=
  match s.refreshTimerRef with
  | some tid => clearTimeoutL tid s.liveTimers
  | none => s.liveTimers

/-- `clearAuth` from `useAuth.ts` (lines 122-129): cancel the pending refresh
timer, null the access token and user, and remove the stored refresh token.
The source does not null `refreshTimerRef.current` itself. -/
def clearAuth (s : ClientState) : ClientState :=
  { s with
    liveTimers := cancelPending s
    accessToken := none
    user := none
    storedRefreshToken := none }

/-- The delay computed by `scheduleRefresh` (line 139):
`Math.max((expiresInSeconds - refreshBeforeExpiry) * 1000, 1000)`. -/
def refreshInMs (cfg : Config) (expiresInSeconds : Int) : Int :=
  max ((expiresInSeconds - cfg.refreshBeforeExpiry) * 1000) 1000

/-- `scheduleRefresh` from `useAuth.ts` (lines 131-149): no-op when
`autoRefresh` is off; otherwise cancel any prior pending timer, then install a
fresh timer with delay `refreshInMs` and store its handle in
`refreshTimerRef`. -/
def scheduleRefresh (cfg : Config) (expiresInSeconds : Int) (s : ClientState) :
    ClientState :=
  if cfg.autoRefresh then
    { s with
      liveTimers :=
        cancelPending s ++ [{ id := s.nextTimerId, delayMs := refreshInMs cfg expiresInSeconds }]
      refreshTimerRef := some s.nextTimerId
      nextTimerId := s.nextTimerId + 1 }
  else s

/-- Outcome of the `fetch` performed by `refreshTokenFn`: an HTTP-ok JSON body
(`access_token`, `user`, `expires_in`), a non-ok response, or a thrown
network error. -/
inductive RefreshResponse where
  | ok (accessToken : String) (user : User) (expiresIn : Int)
  | httpError
  | networkError
deriving DecidableEq

/-- The part of `refreshTokenFn` (lines 157-177) that runs once the request is
in flight, i.e. after the stored-refresh-token null check has already passed:
on a non-ok response or a thrown error, `clearAuth` and report failure; on
success, set the access token and user, reschedule, and report success.  Note
that it does not re-read or re-check `localStorage` after the `await`. -/
def refreshContinue (cfg : Config) (resp : RefreshResponse) (s : ClientState) :
    ClientState × Bool :=
  match resp with
  | .ok tok u expiresIn =>
      (scheduleRefresh cfg expiresIn { s with accessToken := some tok, user := some u }, true)
  | .httpError => (clearAuth s, false)
  | .networkError => (clearAuth s, false)

/-- `refreshTokenFn` from `useAuth.ts` (lines 151-178), run atomically: if no
refresh token is stored, return `false` without touching state; otherwise
behave as `refreshContinue` on the server's response. -/
def refreshTokenFn (cfg : Config) (resp : RefreshResponse) (s : ClientState) :
    ClientState × Bool :=
  match s.storedRefreshToken with
  | none => (s, false)
  | some _ => refreshContinue cfg resp s

/-- The callback body installed by `scheduleRefresh` (lines 141-146):
`const success = await refreshFn(); if (!success) clearAuth();`. -/
def timerCallback (cfg : Config) (resp : RefreshResponse) (s : ClientState) :
    ClientState :=
  match refreshTokenFn cfg resp s with
  | (s1, true) => s1
  | (s1, false) => clearAuth s1

/-- `isAuthenticated` as returned by `useAuth` (line 414):
`!!user && !!accessToken`. -/
def isAuthenticated (s : ClientState) : Bool :=
  s.user.isSome && s.accessToken.isSome

/-- Outcome of the `fetch` performed by `login`: an ok JSON body
(`access_token`, `refresh_token`, `expires_in`, `user`), a non-ok body whose
optional `error` field feeds `setError`, or a thrown network error. -/
inductive LoginResponse where
  | ok (accessToken refreshTokenValue : String) (user : User) (expiresIn : Int)
  | httpError (errMsg : Option String)
  | networkError
deriving DecidableEq

/-- `login` from `useAuth.ts` (lines 205-237): set loading, clear the error;
on success store the access token, user and refresh token, schedule the
proactive refresh and return `true`; on a non-ok response or network error set
the error message and return `false`; in all cases loading ends `false`. -/
def login (cfg : Config) (resp : LoginResponse) (s : ClientState) :
    ClientState × Bool :=
  match resp with
  | .ok tok refreshTok u expiresIn =>
      ({ scheduleRefresh cfg expiresIn
           { s with
             error := none
             accessToken := some tok
             user := some u
             storedRefreshToken := some refreshTok } with isLoading := false },
       true)
  | .httpError errMsg =>
      ({ s with error := some (errMsg.getD "Ошибка авторизации"), isLoading := false }, false)
  | .networkError =>
      ({ s with error := some "Ошибка сети", isLoading := false }, false)

/-- Outcome of the `fetch` performed by `register`: an ok JSON body carrying
`email_verification_required` and an optional `message`, a non-ok body with an
optional `error` field, or a thrown network error. -/
inductive RegisterResponse where
  | ok (emailVerificationRequired : Bool) (message : Option String)
  | httpError (errMsg : Option String)
  | networkError
deriving DecidableEq

/-- The value `register` resolves with (`interface RegisterResult`). -/
structure RegisterResult where
  success : Bool
  emailVerificationRequired : Bool
  message : Option String
deriving DecidableEq

/-- `register` from `useAuth.ts` (lines 243-289): on a non-ok response or
network error set the error and fail; if the server flags
`email_verification_required`, succeed without logging in (no tokens stored);
otherwise perform an implicit `login` with the same email and password and
return its success. -/
def register (cfg : Config) (resp : RegisterResponse) (loginResp : LoginResponse)
    (s : ClientState) : ClientState × RegisterResult :=
  match resp with
  | .ok required msg =>
      if required then
        ({ s with error := none, isLoading := false },
         { success := true, emailVerificationRequired := true, message := msg })
      else
        match login cfg loginResp { s with error := none, isLoading := true } with
        | (s1, okL) =>
            ({ s1 with isLoading := false },
             { success := okL, emailVerificationRequired := false, message := none })
  | .httpError errMsg =>
      ({ s with error := some (errMsg.getD "Ошибка регистрации"), isLoading := false },
       { success := false, emailVerificationRequired := false, message := none })
  | .networkError =>
      ({ s with error := some "Ошибка сети", isLoading := false },
       { success := false, emailVerificationRequired := false, message := none })

/-- Outcome of the `fetch` performed by `logout` (its result is discarded by
the source's `try { ... } catch \x7b\x7d`). -/
inductive LogoutResponse where
  | ok
  | httpError
  | networkError
deriving DecidableEq

/-- `logout` from `useAuth.ts` (lines 327-341): send the stored refresh token
to the server, ignore any failure of that request, and `clearAuth`. -/
def logout (_resp : LogoutResponse) (s : ClientState) : ClientState :=
  clearAuth s

/-- The externally observable events that drive the controller: the operations
of `useAuth` plus the firing of an installed timer (which runs the callback of
`scheduleRefresh`). -/
inductive Event where
  | loginEv (resp : LoginResponse)
  | registerEv (resp : RegisterResponse) (loginResp : LoginResponse)
  | logoutEv (resp : LogoutResponse)
  | refreshEv (resp : RefreshResponse)
  | timerFireEv (tid : Nat) (resp : RefreshResponse)
  | clearAuthEv
deriving DecidableEq

/-- One step of the controller.  A timer may fire only while it is live; firing
removes it from the pool and runs the scheduled-refresh callback. -/
def step (cfg : Config) (e : Event) (s : ClientState) : ClientState :=
  match e with
  | .loginEv resp => (login cfg resp s).1
  | .registerEv resp loginResp => (register cfg resp loginResp s).1
  | .logoutEv resp => logout resp s
  | .refreshEv resp => (refreshTokenFn cfg resp s).1
  | .timerFireEv tid resp =>
      if s.liveTimers.any (fun t => decide (t.id = tid)) then
        timerCallback cfg resp { s with liveTimers := clearTimeoutL tid s.liveTimers }
      else s
  | .clearAuthEv => clearAuth s

/-- The state of a freshly mounted `useAuth` (its `useState` initialisers),
with whatever refresh token `localStorage` already holds. -/
def initState (stored : Option String) : ClientState :=
  { user := none
    accessToken := none
    isLoading := true
    error := none
    storedRefreshToken := stored
    refreshTimerRef := none
    liveTimers := []
    nextTimerId := 1 }

/-- Run the controller from the mount state through a list of events. -/
def run (cfg : Config) (stored : Option String) (evs : List Event) : ClientState :=
  evs.foldl (fun s e => step cfg e s) (initState stored)

/-- The state of a controller that has completed a successful login: a concrete
instance used to exercise the logout / in-flight-refresh race. -/
def raceLoggedIn : ClientState :=
  { user := some { id := 1, email := "a@x.com", name := none }
    accessToken := some "at0"
    isLoading := false
    error := none
    storedRefreshToken := some "rt0"
    refreshTimerRef := some 1
    liveTimers := [{ id := 1, delayMs := 840000 }]
    nextTimerId := 2 }

/-- The stale response processed after logout in the race scenario: the server
answered the in-flight refresh with HTTP 200 and a fresh access token. -/
def raceStaleResponse : RefreshResponse :=
  .ok "at1" { id := 1, email := "a@x.com", name := none } 900

/-- Final state of the race scenario: from `raceLoggedIn`, `refreshTokenFn`
passes its stored-token check and its `fetch` is in flight; `logout` then
completes and clears the state; finally the stale successful response arrives
and the post-`await` remainder of `refreshTokenFn` (`refreshContinue`)
processes it. -/
def raceFinal : ClientState :=
  (refreshContinue defaultConfig raceStaleResponse (logout .ok raceLoggedIn)).1

/-!
Server side.  The backend package (`backend/auth/handlers/*.py`,
`backend/auth/utils/password.py`) is not part of the source tree — only the
front end and the installation notes are — so the Session Registry and the
register-time password validation below are modelled from the specification.
-/

/-- Modelled from the spec: the one-way hash under which the Session Registry
stores refresh tokens ("the raw token is never stored; only its one-way hash
is stored and compared", §3/§4.4).  The hashing primitive itself is an
external collaborator; all the registry needs is that it is a deterministic
injection, which this concrete stand-in is. -/
def hashToken (raw : String) : List Char :=
  '#' :: raw.data

/-- Modelled from the spec: a `refresh_tokens` row (`RefreshToken record`,
§3): owning user, token hash, absolute expiry. -/
structure SessionRecord where
  userId : Nat
  tokenHash : List Char
  expiresAt : Nat
deriving DecidableEq

/-- Modelled from the spec: the Session Registry's persisted state, the
`refresh_tokens` table. -/
abbrev Registry := List SessionRecord

/-- Modelled from the spec: `createSession(userId, rawRefreshToken, ttl)`
(§4.4) — store the hash of the raw token with its expiry. -/
def createSession (reg : Registry) (uid : Nat) (raw : String) (expiresAt : Nat) :
    Registry :=
  reg ++ [{ userId := uid, tokenHash := hashToken raw, expiresAt := expiresAt }]

/-- Lookup by token hash in the registry. -/
def findByHash (reg : Registry) (h : List Char) : Option SessionRecord :=
  reg.find? (fun r => decide (r.tokenHash = h))

/-- Delete every record bearing the given token hash. -/
def removeByHash (reg : Registry) (h : List Char) : Registry :=
  reg.filter (fun r => decide (r.tokenHash ≠ h))

/-- Result of `rotate` (§4.4): the fresh raw token and the owning user, or a
failure (`Invalid` when no record matches the presented token's hash,
`Expired` when the matching record has expired). -/
inductive RotateResult where
  | ok (newRaw : String) (userId : Nat)
  | invalid
  | expired
deriving DecidableEq

/-- Modelled from the spec: `rotate(oldRawToken)` (§4.4) — look up the record
by the hash of the presented token; fail `Invalid` if absent, `Expired` if
past expiry; otherwise atomically delete the old record and store the fresh
token's hash for the same user.  The fresh raw token (`newRaw`, produced by
the Token Issuer's `issueRefreshToken`) and the clock are parameters. -/
def rotate (reg : Registry) (now : Nat) (oldRaw newRaw : String) (ttl : Nat) :
    RotateResult × Registry :=
  match findByHash reg (hashToken oldRaw) with
  | none => (.invalid, reg)
  | some r =>
      if r.expiresAt ≤ now then (.expired, reg)
      else
        (.ok newRaw r.userId,
         removeByHash reg (hashToken oldRaw) ++
           [{ userId := r.userId, tokenHash := hashToken newRaw, expiresAt := now + ttl }])

/-!
Password policy.  The client-side part is embedded from
`src/frontend/RegisterForm.tsx` (`handleRegister`); the server-side part is
modelled from the specification.
-/

/-- Modelled from the spec: the register-time password validation performed by
the backend (`utils/password.py`, not under the source tree): "validate
password policy (8–128 chars, ≥1 letter, ≥1 digit)" (§4.6). -/
def validatePassword (p : String) : Bool :=
  decide (8 ≤ p.length) && decide (p.length ≤ 128) &&
    p.data.any Char.isAlpha && p.data.any Char.isDigit

/-- The pre-submit checks of `handleRegister` in `RegisterForm.tsx`
(lines 83-116): required fields present, passwords match, length at least 8.
Returns the local error message, or `none` when the form submits. -/
def handleRegisterClientCheck (email password confirmPassword : String) :
    Option String :=
  if email = "" ∨ password = "" then some "Заполните обязательные поля"
  else if password ≠ confirmPassword then some "Пароли не совпадают"
  else if password.length < 8 then some "Пароль должен содержать минимум 8 символов"
  else none

/-- Outcome of a full registration attempt. -/
inductive RegFlowOutcome where
  | localValidationError (msg : String)
  | weakPassword
  | duplicateEmail
  | created (userId : Nat)
deriving DecidableEq

/-- Modelled from the spec: the backend register handler
(`handlers/register.py`, not under the source tree): "validate password policy
→ Credential Store `createUser` (fails `DuplicateEmail`…)" (§4.6), with the
email uniqueness check case-insensitive (§3). -/
def serverRegister (existingEmails : List String) (email password : String) :
    RegFlowOutcome :=
  if validatePassword password = false then .weakPassword
  else if existingEmails.any (fun e2 => decide (e2.toLower = email.toLower)) then
    .duplicateEmail
  else .created (existingEmails.length + 1)

/-- The whole registration pipeline for one request: the form's local checks
followed by the server-side handler. -/
def registerFlow (existingEmails : List String) (email password confirmPassword : String) :
    RegFlowOutcome :=
  match handleRegisterClientCheck email password confirmPassword with
  | some m => .localValidationError m
  | none => serverRegister existingEmails email password

/-! Helper lemmas. -/

theorem find?_append_none {α : Type} (p : α → Bool) (l1 l2 : List α)
    (h : l1.find? p = none) : (l1 ++ l2).find? p = l2.find? p := by
  induction l1 with
  | nil => rfl
  | cons a l ih =>
      by_cases hpa : p a = true
      · rw [List.find?_cons_of_pos _ hpa] at h
        exact absurd h (by simp)
      · rw [List.find?_cons_of_neg _ hpa] at h
        rw [List.cons_append, List.find?_cons_of_neg _ hpa]
        exact ih h

theorem hashToken_ne {a b : String} (h : a ≠ b) : hashToken a ≠ hashToken b := by
  intro hc
  apply h
  unfold hashToken at hc
  injection hc with _ h2
  rcases a with ⟨da⟩
  rcases b with ⟨db⟩
  simp only at h2
  rw [h2]

theorem findByHash_removeByHash (reg : Registry) (h : List Char) :
    findByHash (removeByHash reg h) h = none := by
  unfold findByHash removeByHash
  rw [List.find?_eq_none]
  intro x hx
  rw [List.mem_filter] at hx
  simpa using of_decide_eq_true hx.2

/-- The timer invariant of the controller: at most one live timer, and every
live timer is the one tracked by `refreshTimerRef`. -/
def TimerInv (s : ClientState) : Prop :=
  s.liveTimers.length ≤ 1 ∧ ∀ t ∈ s.liveTimers, s.refreshTimerRef = some t.id

theorem cancelPending_eq_nil {s : ClientState}
    (h : ∀ t ∈ s.liveTimers, s.refreshTimerRef = some t.id) :
    cancelPending s = [] := by
  unfold cancelPending
  cases href : s.refreshTimerRef with
  | none =>
      cases hl : s.liveTimers with
      | nil => rfl
      | cons t l =>
          have ht := h t (by rw [hl]; exact List.mem_cons_self t l)
          rw [href] at ht
          cases ht
  | some tid =>
      unfold clearTimeoutL
      rw [List.filter_eq_nil_iff]
      intro t ht
      have ht2 := h t ht
      rw [href] at ht2
      have : t.id = tid := by injection ht2 with h3; omega
      simp [this]

theorem timerInv_mk {s s2 : ClientState} (hl : s2.liveTimers = s.liveTimers)
    (hr : s2.refreshTimerRef = s.refreshTimerRef) (h : TimerInv s) : TimerInv s2 := by
  unfold TimerInv
  rw [hl, hr]
  exact h

theorem timerInv_clearAuth {s : ClientState} (h : TimerInv s) : TimerInv (clearAuth s) := by
  unfold clearAuth TimerInv
  rw [cancelPending_eq_nil h.2]
  simp

theorem timerInv_scheduleRefresh (cfg : Config) (e : Int) {s : ClientState}
    (h : TimerInv s) : TimerInv (scheduleRefresh cfg e s) := by
  unfold scheduleRefresh
  by_cases hauto : cfg.autoRefresh = true
  · rw [if_pos hauto]
    unfold TimerInv
    rw [cancelPending_eq_nil h.2]
    simp
  · rw [if_neg hauto]
    exact h

theorem timerInv_refreshContinue (cfg : Config) (resp : RefreshResponse) {s : ClientState}
    (h : TimerInv s) : TimerInv (refreshContinue cfg resp s).1 := by
  cases resp with
  | ok tok u e => exact timerInv_scheduleRefresh cfg e (timerInv_mk rfl rfl h)
  | httpError => exact timerInv_clearAuth h
  | networkError => exact timerInv_clearAuth h

theorem timerInv_refreshTokenFn (cfg : Config) (resp : RefreshResponse) {s : ClientState}
    (h : TimerInv s) : TimerInv (refreshTokenFn cfg resp s).1 := by
  unfold refreshTokenFn
  cases hst : s.storedRefreshToken with
  | none => exact h
  | some tok => exact timerInv_refreshContinue cfg resp h

theorem timerInv_timerCallback (cfg : Config) (resp : RefreshResponse) {s : ClientState}
    (h : TimerInv s) : TimerInv (timerCallback cfg resp s) := by
  unfold timerCallback
  rcases hv : refreshTokenFn cfg resp s with ⟨s1, b⟩
  have h1 : TimerInv s1 := by
    have := timerInv_refreshTokenFn cfg resp h
    rw [hv] at this
    exact this
  cases b with
  | true => exact h1
  | false => exact timerInv_clearAuth h1

theorem timerInv_login (cfg : Config) (resp : LoginResponse) {s : ClientState}
    (h : TimerInv s) : TimerInv (login cfg resp s).1 := by
  cases resp with
  | ok tok rt u e =>
      exact timerInv_mk rfl rfl (timerInv_scheduleRefresh cfg e (timerInv_mk rfl rfl h))
  | httpError m => exact timerInv_mk rfl rfl h
  | networkError => exact timerInv_mk rfl rfl h

theorem timerInv_register (cfg : Config) (resp : RegisterResponse)
    (loginResp : LoginResponse) {s : ClientState} (h : TimerInv s) :
    TimerInv (register cfg resp loginResp s).1 := by
  cases resp with
  | ok required msg =>
      cases required with
      | true => exact timerInv_mk rfl rfl h
      | false =>
          exact timerInv_mk rfl rfl
            (timerInv_login cfg loginResp (timerInv_mk rfl rfl h))
  | httpError m => exact timerInv_mk rfl rfl h
  | networkError => exact timerInv_mk rfl rfl h

theorem timerInv_filterTid (tid : Nat) {s : ClientState} (h : TimerInv s) :
    TimerInv { s with liveTimers := clearTimeoutL tid s.liveTimers } := by
  constructor
  · exact le_trans (List.length_filter_le _ _) h.1
  · intro t ht
    have ht2 : t ∈ s.liveTimers := by
      have := (List.mem_filter.mp ht).1
      exact this
    exact h.2 t ht2

theorem timerInv_step (cfg : Config) (e : Event) {s : ClientState} (h : TimerInv s) :
    TimerInv (step cfg e s) := by
  cases e with
  | loginEv resp => exact timerInv_login cfg resp h
  | registerEv resp lr => exact timerInv_register cfg resp lr h
  | logoutEv resp => exact timerInv_clearAuth h
  | refreshEv resp => exact timerInv_refreshTokenFn cfg resp h
  | timerFireEv tid resp =>
      simp only [step]
      by_cases hl : s.liveTimers.any (fun t => decide (t.id = tid)) = true
      · rw [if_pos hl]
        exact timerInv_timerCallback cfg resp (timerInv_filterTid tid h)
      · rw [if_neg hl]
        exact h
  | clearAuthEv => exact timerInv_clearAuth h

theorem timerInv_foldl (cfg : Config) (evs : List Event) :
    ∀ s : ClientState, TimerInv s → TimerInv (evs.foldl (fun s e => step cfg e s) s) := by
  induction evs with
  | nil => intro s h; exact h
  | cons e evs ih =>
      intro s h
      exact ih (step cfg e s) (timerInv_step cfg e h)

/-! Claim theorems. -/

/-- C2: the Client Session Controller is claimed to keep its state cleared
when a refresh response arrives after logout.  The code does not: starting
from the logged-in state `raceLoggedIn`, with a `refreshTokenFn` call past its
stored-token check and its request in flight, `logout` clears everything, yet
processing the stale successful response (`refreshContinue`, the post-`await`
remainder of `refreshTokenFn`) re-installs the access token and user and the
controller is authenticated again. -/
theorem stale_refresh_resurrects_after_logout :
    (logout .ok raceLoggedIn).accessToken = none ∧
    (logout .ok raceLoggedIn).user = none ∧
    (logout .ok raceLoggedIn).storedRefreshToken = none ∧
    raceLoggedIn.storedRefreshToken = some "rt0" ∧
    refreshTokenFn defaultConfig raceStaleResponse raceLoggedIn
      = refreshContinue defaultConfig raceStaleResponse raceLoggedIn ∧
    raceFinal.accessToken = some "at1" ∧
    raceFinal.user = some { id := 1, email := "a@x.com", name := none } ∧
    isAuthenticated raceFinal = true :=
  ⟨rfl, rfl, rfl, rfl, rfl, rfl, rfl, rfl⟩

/-- C3: a refresh attempt fails exactly when there is no stored refresh token,
the response is non-ok, or the request throws; and whenever the scheduled
refresh's callback runs such a failing attempt, the controller ends with the
access token, user and stored refresh token all cleared. -/
theorem scheduled_refresh_failure_clears_session (cfg : Config)
    (resp : RefreshResponse) (s : ClientState) :
    ((refreshTokenFn cfg resp s).2 = false ↔
      (s.storedRefreshToken = none ∨ resp = .httpError ∨ resp = .networkError)) ∧
    ((refreshTokenFn cfg resp s).2 = false →
      (timerCallback cfg resp s).accessToken = none ∧
      (timerCallback cfg resp s).user = none ∧
      (timerCallback cfg resp s).storedRefreshToken = none) := by
  rcases hst : s.storedRefreshToken with _ | tok <;>
    cases resp <;>
      simp [refreshTokenFn, refreshContinue, timerCallback, clearAuth, hst]

/-- Closed witness for the C3 theorem at a concrete failing refresh. -/
theorem scheduled_refresh_failure_clears_session_witness :
    (timerCallback defaultConfig .networkError raceLoggedIn).accessToken = none :=
  ((scheduled_refresh_failure_clears_session defaultConfig .networkError
      raceLoggedIn).2 rfl).1

/-- C8: `logout` is total and, for every controller state and every outcome of
the server request (ok, HTTP error, thrown network error), it ends with the
session cleared: access token and user `null`, stored refresh token removed,
`isAuthenticated` false; its result does not depend on the server response. -/
theorem logout_always_clears (resp : LogoutResponse) (s : ClientState) :
    (logout resp s).accessToken = none ∧
    (logout resp s).user = none ∧
    (logout resp s).storedRefreshToken = none ∧
    isAuthenticated (logout resp s) = false ∧
    logout resp s = logout .ok s := by
  simp [logout, clearAuth, isAuthenticated]

/-- C9: the delay installed by `scheduleRefresh` is
`max((expiresInSeconds - refreshBeforeExpiry) * 1000, 1000)` milliseconds:
it is always at least 1000 ms (hence positive, never zero or negative), it is
exactly 1000 ms whenever the token expires within the margin, and it is the
delay of the timer `scheduleRefresh` installs. -/
theorem refresh_delay_lower_bound (cfg : Config) (e : Int) (s : ClientState)
    (hauto : cfg.autoRefresh = true) :
    refreshInMs cfg e = max ((e - cfg.refreshBeforeExpiry) * 1000) 1000 ∧
    1000 ≤ refreshInMs cfg e ∧
    0 < refreshInMs cfg e ∧
    (e ≤ cfg.refreshBeforeExpiry → refreshInMs cfg e = 1000) ∧
    (scheduleRefresh cfg e s).liveTimers.getLast?
      = some { id := s.nextTimerId, delayMs := refreshInMs cfg e } := by
  refine ⟨rfl, le_max_right _ _, lt_of_lt_of_le (by norm_num) (le_max_right _ _), ?_, ?_⟩
  · intro h
    have h2 : e - cfg.refreshBeforeExpiry ≤ 0 := by omega
    have h3 : (e - cfg.refreshBeforeExpiry) * 1000 ≤ 0 * 1000 :=
      mul_le_mul_of_nonneg_right h2 (by norm_num)
    unfold refreshInMs
    exact max_eq_right (by linarith)
  · rw [scheduleRefresh, if_pos hauto]
    exact List.getLast?_concat _

/-- Closed witness for the C9 theorem at the default configuration. -/
theorem refresh_delay_lower_bound_witness :
    1000 ≤ refreshInMs defaultConfig 900 :=
  (refresh_delay_lower_bound defaultConfig 900 (initState none) rfl).2.1

/-- C4: in every controller state reachable from a fresh mount through any
sequence of logins, registrations, logouts, refreshes, timer firings and
`clearAuth` calls, at most one pending refresh timer is live. -/
theorem at_most_one_pending_timer (cfg : Config) (stored : Option String)
    (evs : List Event) :
    (run cfg stored evs).liveTimers.length ≤ 1 :=
  (timerInv_foldl cfg evs (initState stored) ⟨by simp [initState], by simp [initState]⟩).1

/-- C5 counterexample: with the default 60-second margin and a token that
expires in 60 seconds, `scheduleRefresh` installs a 1000 ms timer, not the
`(expires_in - refreshBeforeExpiry) = 0` seconds the claim requires. -/
theorem refresh_delay_not_margin_at_60 :
    (scheduleRefresh defaultConfig 60 (initState none)).liveTimers
      = [{ id := 1, delayMs := 1000 }] ∧
    refreshInMs defaultConfig 60 = 1000 ∧
    (60 - defaultConfig.refreshBeforeExpiry) * 1000 = 0 ∧
    refreshInMs defaultConfig 60 ≠ (60 - defaultConfig.refreshBeforeExpiry) * 1000 := by
  refine ⟨by decide, by decide, by decide, by decide⟩

/-- C5 amended: on every successful login (and, the same code path, every
successful refresh) the installed timer's delay is
`max((expires_in - refreshBeforeExpiry) * 1000, 1000)` milliseconds, which
equals `(expires_in - refreshBeforeExpiry)` seconds exactly whenever
`expires_in` exceeds the margin by at least one second. -/
theorem refresh_delay_max_formula (cfg : Config) (a r : String) (u : User)
    (e : Int) (s : ClientState) (hauto : cfg.autoRefresh = true) :
    ((login cfg (.ok a r u e) s).1.liveTimers.getLast?
       = some { id := s.nextTimerId, delayMs := refreshInMs cfg e }) ∧
    ((refreshContinue cfg (.ok a u e) s).1.liveTimers.getLast?
       = some { id := s.nextTimerId, delayMs := refreshInMs cfg e }) ∧
    refreshInMs cfg e = max ((e - cfg.refreshBeforeExpiry) * 1000) 1000 ∧
    (cfg.refreshBeforeExpiry + 1 ≤ e →
      refreshInMs cfg e = (e - cfg.refreshBeforeExpiry) * 1000) := by
  refine ⟨?_, ?_, rfl, ?_⟩
  · simp only [login, scheduleRefresh, if_pos hauto]
    exact List.getLast?_concat _
  · simp only [refreshContinue, scheduleRefresh, if_pos hauto]
    exact List.getLast?_concat _
  · intro h
    have h2 : (1 : Int) * 1000 ≤ (e - cfg.refreshBeforeExpiry) * 1000 :=
      mul_le_mul_of_nonneg_right (by omega) (by norm_num)
    unfold refreshInMs
    exact max_eq_left (by linarith)

/-- Closed witness for the amended C5 theorem: a 900-second expiry with the
default 60-second margin schedules the refresh 840 seconds out. -/
theorem refresh_delay_max_formula_witness :
    refreshInMs defaultConfig 900 = (900 - defaultConfig.refreshBeforeExpiry) * 1000 :=
  (refresh_delay_max_formula defaultConfig "a" "r"
      { id := 1, email := "a@x.com", name := none } 900 (initState none) rfl).2.2.2
    (by decide)

/-- C7: `register` branches on the server's verification flag.  When the
response carries `email_verification_required`, it succeeds without logging
in: no token or user is stored, the timer pool is untouched, and the
controller's authentication status is unchanged.  Otherwise it performs the
implicit `login` and its success equals that login's success. -/
theorem register_verification_branch (cfg : Config) (lr : LoginResponse)
    (msg : Option String) (s : ClientState) :
    ((register cfg (.ok true msg) lr s).2
       = { success := true, emailVerificationRequired := true, message := msg }) ∧
    (register cfg (.ok true msg) lr s).1.accessToken = s.accessToken ∧
    (register cfg (.ok true msg) lr s).1.user = s.user ∧
    (register cfg (.ok true msg) lr s).1.storedRefreshToken = s.storedRefreshToken ∧
    (register cfg (.ok true msg) lr s).1.liveTimers = s.liveTimers ∧
    isAuthenticated (register cfg (.ok true msg) lr s).1 = isAuthenticated s ∧
    (register cfg (.ok false msg) lr s).2.emailVerificationRequired = false ∧
    (register cfg (.ok false msg) lr s).2.success = (login cfg lr s).2 := by
  refine ⟨rfl, rfl, rfl, rfl, rfl, rfl, ?_, ?_⟩
  · cases lr <;> rfl
  · cases lr <;> rfl

/-- C10: `isAuthenticated` is true exactly when both the user and the access
token are non-null, and the state-clearing operations — `clearAuth`, `logout`,
and a scheduled refresh whose attempt fails — all leave it false. -/
theorem isAuthenticated_iff_user_and_token (cfg : Config) (s : ClientState)
    (resp : RefreshResponse) (lresp : LogoutResponse) :
    (isAuthenticated s = true ↔ (s.user ≠ none ∧ s.accessToken ≠ none)) ∧
    isAuthenticated (clearAuth s) = false ∧
    isAuthenticated (logout lresp s) = false ∧
    ((refreshTokenFn cfg resp s).2 = false →
      isAuthenticated (timerCallback cfg resp s) = false) := by
  refine ⟨?_, ?_, ?_, ?_⟩
  · simp [isAuthenticated, Bool.and_eq_true, Option.isSome_iff_ne_none]
  · simp [isAuthenticated, clearAuth]
  · simp [isAuthenticated, logout, clearAuth]
  · intro h
    unfold timerCallback
    rcases hv : refreshTokenFn cfg resp s with ⟨s1, b⟩
    rw [hv] at h
    simp only at h
    subst h
    simp [isAuthenticated, clearAuth]

/-- Closed witness for the C10 theorem at a concrete failing refresh. -/
theorem isAuthenticated_iff_user_and_token_witness :
    isAuthenticated (timerCallback defaultConfig .httpError raceLoggedIn) = false :=
  (isAuthenticated_iff_user_and_token defaultConfig raceLoggedIn .httpError .ok).2.2.2
    rfl

/-- C1: refresh-token rotation is anti-replay.  For a token `t` issued at
login (`createSession`, with `t`'s hash not yet present) and still unexpired,
the first `rotate` succeeds and mints `nr`; presenting the same raw token `t`
a second time then fails `Invalid`, because the old record was deleted when
the new token was minted. -/
theorem rotate_second_use_invalid (reg : Registry) (uid : Nat) (t nr nr2 : String)
    (exp now1 now2 ttl1 ttl2 : Nat)
    (hfresh : findByHash reg (hashToken t) = none)
    (hunexp : now1 < exp)
    (hne : nr ≠ t) :
    (rotate (createSession reg uid t exp) now1 t nr ttl1).1 = .ok nr uid ∧
    (rotate (rotate (createSession reg uid t exp) now1 t nr ttl1).2 now2 t nr2 ttl2).1
      = .invalid := by
  have hfind : findByHash (createSession reg uid t exp) (hashToken t)
      = some { userId := uid, tokenHash := hashToken t, expiresAt := exp } := by
    unfold findByHash at hfresh ⊢
    unfold createSession
    rw [find?_append_none _ _ _ hfresh]
    simp [List.find?]
  have hnexp : ¬ (exp ≤ now1) := by omega
  have h1 : rotate (createSession reg uid t exp) now1 t nr ttl1
      = (.ok nr uid,
         removeByHash (createSession reg uid t exp) (hashToken t) ++
           [{ userId := uid, tokenHash := hashToken nr, expiresAt := now1 + ttl1 }]) := by
    unfold rotate
    rw [hfind]
    simp [hnexp]
  have h2 : findByHash
      (removeByHash (createSession reg uid t exp) (hashToken t) ++
        [{ userId := uid, tokenHash := hashToken nr, expiresAt := now1 + ttl1 }])
      (hashToken t) = none := by
    unfold findByHash
    rw [find?_append_none]
    · have hne2 : hashToken nr ≠ hashToken t := hashToken_ne hne
      simp [List.find?, hne2]
    · exact findByHash_removeByHash _ _
  refine ⟨by rw [h1], ?_⟩
  rw [h1]
  unfold rotate
  rw [h2]

/-- Closed witness for the C1 theorem: a concrete login, a successful
rotation, and the replayed first token failing `Invalid`. -/
theorem rotate_second_use_invalid_witness :
    (rotate (createSession [] 1 "t0" 100) 5 "t0" "t1" 30).1 = .ok "t1" 1 ∧
    (rotate (rotate (createSession [] 1 "t0" 100) 5 "t0" "t1" 30).2 6 "t0" "t2" 30).1
      = .invalid :=
  rotate_second_use_invalid [] 1 "t0" "t1" "t2" 100 5 6 30 30 rfl (by decide)
    (by decide)

/-- C6: for a register request with a well-formed email that is not already
taken and a matching confirmation field, the registration pipeline (form
checks plus server-side validation) accepts the password exactly when it
satisfies the policy — 8 to 128 characters, at least one letter, at least one
digit — and every password outside the policy fails with a validation error
(the form's local error or the server's weak-password rejection). -/
theorem register_password_policy (existing : List String) (email pw : String)
    (hemail : email ≠ "")
    (hfresh : existing.any (fun e2 => decide (e2.toLower = email.toLower)) = false) :
    ((registerFlow existing email pw pw = .created (existing.length + 1)) ↔
      validatePassword pw = true) ∧
    (validatePassword pw = false →
      (∃ m, registerFlow existing email pw pw = .localValidationError m) ∨
      registerFlow existing email pw pw = .weakPassword) := by
  by_cases hv : validatePassword pw = true
  · have h8 : 8 ≤ pw.length := by
      unfold validatePassword at hv
      simp only [Bool.and_eq_true, decide_eq_true_eq] at hv
      exact hv.1.1.1
    have hpw : pw ≠ "" := by
      intro hc
      rw [hc] at h8
      exact absurd h8 (by decide)
    have hclient : handleRegisterClientCheck email pw pw = none := by
      unfold handleRegisterClientCheck
      rw [if_neg (by simp [hemail, hpw]), if_neg (by simp), if_neg (by omega)]
    have hserver : serverRegister existing email pw = .created (existing.length + 1) := by
      unfold serverRegister
      rw [if_neg (by simp [hv]), if_neg (by simp [hfresh])]
    have hflow : registerFlow existing email pw pw = .created (existing.length + 1) := by
      unfold registerFlow
      rw [hclient]
      exact hserver
    refine ⟨⟨fun _ => hv, fun _ => hflow⟩, fun hcon => absurd hv (by simp [hcon])⟩
  · have hv2 : validatePassword pw = false := by
      revert hv
      cases validatePassword pw <;> simp
    have hfail : (∃ m, registerFlow existing email pw pw = .localValidationError m) ∨
        registerFlow existing email pw pw = .weakPassword := by
      unfold registerFlow
      cases hc : handleRegisterClientCheck email pw pw with
      | some m => exact Or.inl ⟨m, rfl⟩
      | none =>
          refine Or.inr ?_
          unfold serverRegister
          rw [if_pos (by simp [hv2])]
    refine ⟨⟨fun hflow => ?_, fun hvt => absurd hvt hv⟩, fun _ => hfail⟩
    exfalso
    rcases hfail with ⟨m, hm⟩ | hw
    · rw [hflow] at hm
      exact absurd hm (by simp)
    · rw [hflow] at hw
      exact absurd hw (by simp)

/-- Closed witness for the C6 theorem: a policy-conforming password is
accepted by the whole pipeline. -/
theorem register_password_policy_witness :
    registerFlow [] "a@x.com" "Passw0rd" "Passw0rd" = .created 1 :=
  (register_password_policy [] "a@x.com" "Passw0rd" (by decide) rfl).1.mpr (by decide)

end AuthEmail
